import Mathlib

/-!
Shallow embedding of the `warning_window` notification relay
(server `ww/src/main.rs` and client library `api/src/lib.rs`).

Bytes are modelled as `Nat` (all values produced by the code are < 256,
guarded where the source guards them).  A TCP socket is modelled as a
read schedule: a list of chunks, the bytes that successive `read` calls
deliver; each `read` with a buffer of capacity `c` consumes the next
chunk truncated to `c` bytes, and an exhausted schedule models a read
returning 0 bytes (peer closed).  Text payloads are byte lists
(`String::from_utf8_lossy` is the identity on valid UTF-8 at byte level).
-/

namespace WarningWindow

/-- Packet kinds, from `enum PacketType` in `ww/src/main.rs`. -/
inductive PacketType where
  | Info
  | Warn
  | Alert
  | Name
deriving DecidableEq, Repr

/-- From `PacketType::from_type_number`: tags 2..5 are valid, all else errors. -/
def PacketType.from_type_number (type_number : Nat) : Except String PacketType :=
  match type_number with
  | 2 => .ok .Info
  | 3 => .ok .Warn
  | 4 => .ok .Alert
  | 5 => .ok .Name
  | _ => .error "Invalid packet type."

/-- From `PacketType::to_type_number`. -/
def PacketType.to_type_number : PacketType → Nat
  | .Info => 2
  | .Warn => 3
  | .Alert => 4
  | .Name => 5

/-- A decoded packet, from `struct Packet`: a kind plus optional text
(text bytes; the source stores a lossily decoded `String`). -/
structure Packet where
  packet_type : PacketType
  text : Option (List Nat)
deriving DecidableEq, Repr

/-- From `handle_packet` in `ww/src/main.rs`: read one byte (the length
byte), then issue a single further read for the rest of the declared
frame; any shortfall, invalid declared length, unknown kind, or
INFO/NAME frame without text is an error (the connection is closed).
`reads` is the schedule of chunks successive socket reads deliver. -/
def handle_packet (reads : List (List Nat)) : Except String Packet :=
  match (reads.headD []).take 1 with
  | [] => .error "Client closed the connection."
  | b :: _ =>
    let num_bytes_in_packet := b + 1
    if num_bytes_in_packet = 1 then
      .error "Invalid number of bytes declared by packet header."
    else
      let delivered := ((reads.drop 1).headD []).take (num_bytes_in_packet - 1)
      if num_bytes_in_packet ≠ delivered.length + 1 then
        .error "Num of bytes read does not match num of bytes declared in header by client."
      else
        match PacketType.from_type_number (delivered.headD 0) with
        | .error e => .error e
        | .ok packet_type =>
          let packet_text : Option (List Nat) :=
            if num_bytes_in_packet - 2 > 0 then some (delivered.drop 1) else none
          match packet_type, packet_text with
          | .Info, none => .error "Client sent INFO packet without text."
          | .Name, none => .error "Client sent NAME packet without text."
          | _, _ => .ok { packet_type := packet_type, text := packet_text }

/-- One iteration of the read loop in `handle_connection`: a decoded
packet is forwarded as a `Packet` event; any decode error closes the
connection and emits exactly one `Disconnect` event. -/
inductive ConnEvent where
  | packetEv (p : Packet)
  | disconnectEv
deriving DecidableEq, Repr

/-- Events emitted for one frame by the loop body of `handle_connection`. -/
def connection_events (reads : List (List Nat)) : List ConnEvent :=
  match handle_packet reads with
  | .ok p => [.packetEv p]
  | .error _ => [.disconnectEv]

/-- From `handle_association` in `ww/src/main.rs`: one read into a
2-byte buffer (so at most 2 bytes are taken from the chunk); 0 bytes or
a byte count other than 2 drops the connection; the request is rejected
only when BOTH bytes differ from 1; on success the server replies with
the bytes `[1, 1]` (returned here as the written reply). -/
def handle_association (chunk : List Nat) : Except String (List Nat) :=
  let received := chunk.take 2
  if received.length = 0 then
    .error "UnexpectedEof"
  else if received.length ≠ 2 then
    .error "Could not associate: received incorrect num of bytes from client."
  else if received.headD 0 ≠ 1 ∧ (received.drop 1).headD 0 ≠ 1 then
    .error "Could not associate: packet received from client was not an association request."
  else
    .ok [1, 1]

/-- The two bytes `Session::connect` in `api/src/lib.rs` writes as its
association request (`let mut buf: [u8; 2] = [1, 0]`). -/
def client_assoc_request : List Nat := [1, 0]

/-- From the private `Session::send` in `api/src/lib.rs`: messages longer
than 254 bytes are refused before anything is written; otherwise the
frame written to the socket is `[len+1, packet_type, msg...]`. -/
def Session.send (packet_type : Nat) (msg : List Nat) : Except String (List Nat) :=
  if msg.length > 254 then
    .error "Message is too long!"
  else
    .ok ((msg.length + 1) :: packet_type :: msg)

/-- Outcome of a public `Session` send method: a panic, an error return,
or a successful write of the given frame bytes. -/
inductive ClientOutcome where
  | panicked (msg : String)
  | errored (msg : String)
  | sent (bytes : List Nat)
deriving DecidableEq, Repr

/-- Lift a `Session.send` result to a `ClientOutcome`. -/
def ClientOutcome.of_send (r : Except String (List Nat)) : ClientOutcome :=
  match r with
  | .ok b => .sent b
  | .error e => .errored e

/-- From `Session::send_info`: panics on an empty message, else sends kind 2. -/
def send_info (msg : List Nat) : ClientOutcome :=
  if msg.length = 0 then
    .panicked "INFO messages MUST be non-zero length."
  else
    ClientOutcome.of_send (Session.send 2 msg)

/-- From `Session::send_warn`: sends kind 3 with no emptiness check. -/
def send_warn (msg : List Nat) : ClientOutcome :=
  ClientOutcome.of_send (Session.send 3 msg)

/-- From `Session::send_alert`: sends kind 4 with no emptiness check. -/
def send_alert (msg : List Nat) : ClientOutcome :=
  ClientOutcome.of_send (Session.send 4 msg)

/-- Escalation states, from `enum WarnStates` in `ww/src/main.rs`
(`None` is the idle state). -/
inductive WarnStates where
  | None
  | Warn
  | Alert
deriving DecidableEq, Repr

/-- Peer addresses (`SocketAddr`) are abstract keys. -/
abbrev Peer := Nat

/-- From `enum LogItem`: a timestamped, peer-attributed event.
Timestamps are abstract (`Nat`); the claims do not constrain them. -/
inductive LogItem where
  | packetLogItem (timestamp : Nat) (peer_addr : Peer) (packet : Packet)
  | connectLogItem (timestamp : Nat) (peer_addr : Peer)
  | disconnectLogItem (timestamp : Nat) (peer_addr : Peer)
deriving DecidableEq, Repr

/-- The aggregator state, from `struct State` in `ww/src/main.rs`.
`packet_log` is the `VecDeque` (head = front, so `push_front` is cons);
`peer_names` is the `HashMap<SocketAddr, String>` as a partial map. -/
structure State where
  warn_state : WarnStates
  window_should_close : Bool
  packet_log : List LogItem
  peer_names : Peer → Option (List Nat)
  is_focused_mode : Bool

/-- The dirty flags, from `struct RenderState`. -/
structure RenderState where
  focused_mode_changed : Bool
  warn_state_changed : Bool
  packet_log_changed : Bool
  clear_background : Bool
deriving DecidableEq, Repr

/-- From `RenderState::new`: the all-clean flag set. -/
def RenderState.new : RenderState :=
  { focused_mode_changed := false
    warn_state_changed := false
    packet_log_changed := false
    clear_background := false }

/-- From `RenderState::rerender_all`: everything dirty. -/
def RenderState.rerender_all : RenderState :=
  { focused_mode_changed := true
    warn_state_changed := true
    packet_log_changed := true
    clear_background := true }

/-- The log-item branch of `update` in `ww/src/main.rs`: a Warn packet
escalates unless already Alert, an Alert packet escalates
unconditionally, a Name packet with text of byte length < 25 upserts the
peer-name entry, a Disconnect removes the entry; in every case the item
is pushed to the front of the log and the log flag is marked dirty. -/
def process_log_item (s : State) (rs : RenderState) (item : LogItem) :
    State × RenderState :=
  let step : State × RenderState :=
    match item with
    | .packetLogItem _ peer_addr packet =>
      match packet.packet_type with
      | .Warn =>
        if s.warn_state ≠ WarnStates.Alert then
          ({ s with warn_state := WarnStates.Warn },
           { rs with warn_state_changed := true })
        else (s, rs)
      | .Alert =>
        ({ s with warn_state := WarnStates.Alert },
         { rs with warn_state_changed := true })
      | .Name =>
        match packet.text with
        | some name =>
          if name.length < 25 then
            ({ s with peer_names :=
                 fun q => if q = peer_addr then some name else s.peer_names q },
             rs)
          else (s, rs)
        | none => (s, rs)
      | .Info => (s, rs)
    | .disconnectLogItem _ peer_addr =>
      ({ s with peer_names :=
           fun q => if q = peer_addr then none else s.peer_names q },
       rs)
    | .connectLogItem _ _ => (s, rs)
  ({ step.1 with packet_log := item :: step.1.packet_log },
   { step.2 with packet_log_changed := true })

/-- Process a sequence of channel events in order (repeated `update` calls). -/
def process_log_items (s : State) (rs : RenderState) (items : List LogItem) :
    State × RenderState :=
  items.foldl (fun p item => process_log_item p.1 p.2 item) (s, rs)

/-- The `'r'` key branch of `update`: reset the warn state to `None`
unconditionally and mark it dirty. -/
def apply_reset_key (s : State) (rs : RenderState) : State × RenderState :=
  ({ s with warn_state := WarnStates.None },
   { rs with warn_state_changed := true })

/-- How `render_packet_log` identifies the peer of a `Packet` log line:
NAME packets always print the address; otherwise the name-table entry is
printed when present, else the address. -/
inductive Displayed where
  | byAddr
  | byName (n : List Nat)
deriving DecidableEq, Repr

/-- The peer-identity displayed for a `Packet` log line, from
`render_packet_log` in `ww/src/main.rs`. -/
def displayed_peer (peer_names : Peer → Option (List Nat)) (peer_addr : Peer)
    (pt : PacketType) : Displayed :=
  match pt with
  | .Name => .byAddr
  | _ =>
    match peer_names peer_addr with
    | some n => .byName n
    | none => .byAddr

/-- The initial aggregator state built in `main`. -/
def initial_state : State :=
  { warn_state := WarnStates.None
    window_should_close := false
    packet_log := []
    peer_names := fun _ => none
    is_focused_mode := false }

/-- Rust `str::lines()`: split on newline, with a trailing newline not
producing a final empty line. -/
def rust_lines (s : String) : List String :=
  let parts := s.splitOn "\n"
  if parts.getLast? = some "" then parts.dropLast else parts

/-- The width computation of `WarnStateAsciiArt::width`: position of the
first newline, or the art length if none (the arts are ASCII, so char
positions coincide with the source's byte indices). -/
def art_width (art : String) : Nat :=
  art.toList.findIdx (fun c => c = '\n')

/-- The height computation of `WarnStateAsciiArt::height`: `lines().count()`. -/
def art_height (art : String) : Nat :=
  (rust_lines art).length

/-- From `WarnStateAsciiArt::default_info_art`. -/
def default_info_art : String :=
  "  / \\  \n       \n  \\ /  \n"

/-- From `WarnStateAsciiArt::default_warn_art`. -/
def default_warn_art : String :=
  "       \n       \n   O   \n  /|\\  \n       \n"

/-- From `WarnStateAsciiArt::default_alert_art`. -/
def default_alert_art : String :=
  "   .   \n  / \\  \n / ! \\ \n+-----+\n"

/-- The three art strings of `struct WarnStateAsciiArt` (colors are
render-only and not modelled). -/
structure WarnStateAsciiArt where
  info_art : String
  warn_art : String
  alert_art : String

/-- From `WarnStateAsciiArt::to_ascii_art`. -/
def WarnStateAsciiArt.to_ascii_art (a : WarnStateAsciiArt) : WarnStates → String
  | WarnStates.None => a.info_art
  | WarnStates.Warn => a.warn_art
  | WarnStates.Alert => a.alert_art

/-- The default art set built by `WarnStateAsciiArt::new` / `build` with
no custom art files. -/
def default_art : WarnStateAsciiArt :=
  { info_art := default_info_art
    warn_art := default_warn_art
    alert_art := default_alert_art }

/-- The surface-size precondition at the top of `render` in
`ww/src/main.rs`: the terminal must have at least `art width + 10`
columns and `art height + 10` rows for the current state's art,
otherwise `render` logs and returns an error before drawing anything. -/
def render_check (cols rows : Nat) (art : WarnStateAsciiArt)
    (ws : WarnStates) : Except String Unit :=
  let min_cols := art_width (art.to_ascii_art ws) + 10
  let min_rows := art_height (art.to_ascii_art ws) + 10
  if cols < min_cols ∨ rows < min_rows then
    .error "ERROR: ascii art is too large to render on terminal."
  else
    .ok ()

/-- The `while !state.window_should_close` loop of `main`, restricted to
the render step: `render(...)?` propagates a render error out of the
loop (and out of `main`), so a failing frame ends the process.  `ticks`
gives the terminal size at each iteration; the result counts frames
actually rendered, or carries the first render error. -/
def ui_loop (art : WarnStateAsciiArt) (ws : WarnStates) :
    List (Nat × Nat) → Except String Nat
  | [] => .ok 0
  | (cols, rows) :: rest =>
    match render_check cols rows art ws with
    | .error e => .error e
    | .ok _ =>
      match ui_loop art ws rest with
      | .ok n => .ok (n + 1)
      | .error e => .error e

/-- Helper: `from_type_number` errors on every tag outside 2..5. -/
theorem from_type_number_other {k : Nat} (h2 : k ≠ 2) (h3 : k ≠ 3)
    (h4 : k ≠ 4) (h5 : k ≠ 5) :
    PacketType.from_type_number k = Except.error "Invalid packet type." := by
  match k, h2, h3, h4, h5 with
  | 0, _, _, _, _ => rfl
  | 1, _, _, _, _ => rfl
  | 2, h, _, _, _ => exact absurd rfl h
  | 3, _, h, _, _ => exact absurd rfl h
  | 4, _, _, h, _ => exact absurd rfl h
  | 5, _, _, _, h => exact absurd rfl h
  | n + 6, _, _, _, _ => rfl

/-- Claim C10: `Session::send_info` with an empty message panics rather
than returning an error, while `send_warn` and `send_alert` accept an
empty message; every message longer than 254 bytes makes all three
return an error with nothing written to the socket. -/
theorem claim_c10 :
    send_info [] = ClientOutcome.panicked "INFO messages MUST be non-zero length." ∧
    send_warn [] = ClientOutcome.sent [1, 3] ∧
    send_alert [] = ClientOutcome.sent [1, 4] ∧
    (∀ msg : List Nat, msg.length > 254 →
      send_info msg = ClientOutcome.errored "Message is too long!" ∧
      send_warn msg = ClientOutcome.errored "Message is too long!" ∧
      send_alert msg = ClientOutcome.errored "Message is too long!") := by
  refine ⟨rfl, rfl, rfl, ?_⟩
  intro msg h
  have hne : ¬ msg.length = 0 := by omega
  have hsend : ∀ k, Session.send k msg = Except.error "Message is too long!" := by
    intro k
    unfold Session.send
    rw [if_pos h]
  refine ⟨?_, ?_, ?_⟩
  · unfold send_info
    rw [if_neg hne, hsend]
    rfl
  · unfold send_warn
    rw [hsend]
    rfl
  · unfold send_alert
    rw [hsend]
    rfl

/-- Witness for C10 at a concrete 255-byte message. -/
theorem claim_c10_witness :
    (List.replicate 255 0 : List Nat).length > 254 ∧
    send_info (List.replicate 255 0) = ClientOutcome.errored "Message is too long!" := by
  have h : (List.replicate 255 0 : List Nat).length > 254 := by
    rw [List.length_replicate]
    omega
  exact ⟨h, (claim_c10.2.2.2 (List.replicate 255 0) h).1⟩

/-- Counterexample to C2 as stated: the server drops a connection whose
two handshake bytes are exactly `[0, 0]`, and the client writes `[1, 0]`
as its request, not `[0, 0]`. -/
theorem claim_c2_counterexample :
    handle_association [0, 0] =
      Except.error "Could not associate: packet received from client was not an association request." ∧
    client_assoc_request = [1, 0] := by
  exact ⟨rfl, rfl⟩

/-- Claim C2 amended: a two-byte header is accepted (with reply `[1, 1]`)
exactly when at least one of its bytes equals 1; any other byte count is
dropped; the client sends `[1, 0]`. -/
theorem claim_c2 :
    (∀ b0 b1 : Nat,
      handle_association [b0, b1] = Except.ok [1, 1] ↔ (b0 = 1 ∨ b1 = 1)) ∧
    (∀ b : Nat, handle_association [b] =
      Except.error "Could not associate: received incorrect num of bytes from client.") ∧
    handle_association [] = Except.error "UnexpectedEof" ∧
    client_assoc_request = [1, 0] := by
  refine ⟨?_, ?_, rfl, rfl⟩
  · intro b0 b1
    have hsimp : handle_association [b0, b1] =
        if b0 ≠ 1 ∧ b1 ≠ 1 then
          Except.error "Could not associate: packet received from client was not an association request."
        else Except.ok [1, 1] := by
      simp [handle_association]
    rw [hsimp]
    by_cases h0 : b0 = 1
    · simp [h0]
    · by_cases h1 : b1 = 1 <;> simp [h0, h1]
  · intro b
    simp [handle_association]

/-- Witness for C2: the client's actual request `[1, 0]` is accepted
with reply `[1, 1]`. -/
theorem claim_c2_witness :
    handle_association [1, 0] = Except.ok [1, 1] :=
  (claim_c2.1 1 0).mpr (Or.inl rfl)

/-- Claim C3 evaluated at the failing input: the length byte declares 5
following bytes, the socket delivers them across two reads ([3, 65] then
[66, 67, 68]), and the decoder closes the connection after the first
short read instead of reading again. -/
theorem claim_c3 :
    handle_packet [[5], [3, 65], [66, 67, 68]] =
      Except.error "Num of bytes read does not match num of bytes declared in header by client." := by
  rfl

/-- Claim C4: a frame whose length byte is 0, or whose kind tag is not
one of 2, 3, 4, 5, or which is an INFO or NAME frame with empty payload,
is rejected: `handle_packet` errors, the connection closes, and the loop
emits exactly one Disconnect event and no Packet event for that frame. -/
theorem claim_c4 :
    (∀ (more : List Nat) (rest : List (List Nat)),
      handle_packet ((0 :: more) :: rest) =
        Except.error "Invalid number of bytes declared by packet header." ∧
      connection_events ((0 :: more) :: rest) = [ConnEvent.disconnectEv]) ∧
    (∀ (k : Nat) (payload : List Nat),
      k ≠ 2 → k ≠ 3 → k ≠ 4 → k ≠ 5 → payload.length ≤ 254 →
      handle_packet [[payload.length + 1], k :: payload] =
        Except.error "Invalid packet type." ∧
      connection_events [[payload.length + 1], k :: payload] =
        [ConnEvent.disconnectEv]) ∧
    (handle_packet [[1], [2]] = Except.error "Client sent INFO packet without text." ∧
      connection_events [[1], [2]] = [ConnEvent.disconnectEv]) ∧
    (handle_packet [[1], [5]] = Except.error "Client sent NAME packet without text." ∧
      connection_events [[1], [5]] = [ConnEvent.disconnectEv]) := by
  refine ⟨?_, ?_, ⟨rfl, rfl⟩, ⟨rfl, rfl⟩⟩
  · intro more rest
    constructor
    · simp [handle_packet]
    · simp [connection_events, handle_packet]
  · intro k payload h2 h3 h4 h5 _hlen
    have hd : (k :: payload).take (payload.length + 1) = k :: payload := by
      have h1 : payload.length + 1 = (k :: payload).length := by simp
      rw [h1, List.take_length]
    have herr := from_type_number_other h2 h3 h4 h5
    constructor
    · simp [handle_packet, hd, herr]
    · simp [connection_events, handle_packet, hd, herr]

/-- Witness for C4 at concrete malformed frames. -/
theorem claim_c4_witness :
    handle_packet [[0]] =
      Except.error "Invalid number of bytes declared by packet header." ∧
    handle_packet [[2], [9, 65]] = Except.error "Invalid packet type." := by
  constructor
  · exact (claim_c4.1 [] []).1
  · exact (claim_c4.2.1 9 [65] (by decide) (by decide) (by decide) (by decide)
      (by simp)).1

/-- Counterexample to C5 as stated: an INFO packet with empty text
encodes fine, but decoding the resulting frame is an error, not the
original packet (same for NAME). -/
theorem claim_c5_counterexample :
    Session.send 2 [] = Except.ok [1, 2] ∧
    handle_packet [[1], [2]] =
      Except.error "Client sent INFO packet without text." := by
  exact ⟨rfl, rfl⟩

/-- Claim C5 amended: for every kind tag 2..5 and message of byte length
at most 254 — except an INFO or NAME frame with an empty message, which
the decoder rejects — encoding then decoding returns the original kind
and the original text bytes, with an empty message decoded as absent
text. -/
theorem claim_c5 :
    ∀ (k : Nat) (msg : List Nat),
      (k = 2 ∨ k = 3 ∨ k = 4 ∨ k = 5) →
      msg.length ≤ 254 →
      ¬(msg = [] ∧ (k = 2 ∨ k = 5)) →
      ∃ (frame : List Nat) (pt : PacketType),
        Session.send k msg = Except.ok frame ∧
        PacketType.from_type_number k = Except.ok pt ∧
        pt.to_type_number = k ∧
        handle_packet [frame.take 1, frame.drop 1] =
          Except.ok { packet_type := pt,
                      text := if msg = [] then none else some msg } := by
  intro k msg hk hlen hexc
  have hngt : ¬ msg.length > 254 := by omega
  have hsend : Session.send k msg = Except.ok ((msg.length + 1) :: k :: msg) := by
    unfold Session.send
    rw [if_neg hngt]
  have hd : ∀ t : Nat, (t :: msg).take (msg.length + 1) = t :: msg := by
    intro t
    have h1 : msg.length + 1 = (t :: msg).length := by simp
    rw [h1, List.take_length]
  have hne1 : ¬ (msg.length + 1 + 1 = 1) := by omega
  have hsub : msg.length + 1 + 1 - 2 = msg.length := by omega
  rcases hk with hk | hk | hk | hk <;> subst hk
  · -- INFO
    have hm : msg ≠ [] := fun h => hexc ⟨h, Or.inl rfl⟩
    refine ⟨(msg.length + 1) :: 2 :: msg, .Info, hsend, rfl, rfl, ?_⟩
    simp [handle_packet, hd, hne1, hsub, hm, List.length_pos_iff_ne_nil,
      PacketType.from_type_number]
  · -- WARN
    refine ⟨(msg.length + 1) :: 3 :: msg, .Warn, hsend, rfl, rfl, ?_⟩
    by_cases hm : msg = []
    · subst hm
      rfl
    · simp [handle_packet, hd, hne1, hsub, hm, List.length_pos_iff_ne_nil,
        PacketType.from_type_number]
  · -- ALERT
    refine ⟨(msg.length + 1) :: 4 :: msg, .Alert, hsend, rfl, rfl, ?_⟩
    by_cases hm : msg = []
    · subst hm
      rfl
    · simp [handle_packet, hd, hne1, hsub, hm, List.length_pos_iff_ne_nil,
        PacketType.from_type_number]
  · -- NAME
    have hm : msg ≠ [] := fun h => hexc ⟨h, Or.inr rfl⟩
    refine ⟨(msg.length + 1) :: 5 :: msg, .Name, hsend, rfl, rfl, ?_⟩
    simp [handle_packet, hd, hne1, hsub, hm, List.length_pos_iff_ne_nil,
      PacketType.from_type_number]

/-- Witness for C5: round trip of a concrete WARN frame with text "hi". -/
theorem claim_c5_witness :
    ∃ (frame : List Nat) (pt : PacketType),
      Session.send 3 [104, 105] = Except.ok frame ∧
      PacketType.from_type_number 3 = Except.ok pt ∧
      pt.to_type_number = 3 ∧
      handle_packet [frame.take 1, frame.drop 1] =
        Except.ok { packet_type := pt,
                    text := if ([104, 105] : List Nat) = [] then none
                            else some [104, 105] } := by
  exact claim_c5 3 [104, 105] (by omega) (by simp) (by simp)

/-- Counterexample to C6 as stated: encoding a message of length 0 gives
a frame whose length byte is 1, not 0. -/
theorem claim_c6_counterexample :
    ¬ ∃ frame : List Nat,
        Session.send 3 [] = Except.ok frame ∧ frame.headD 0 = 0 := by
  rintro ⟨frame, hf, h0⟩
  have hfr : [1, 3] = frame := by
    simpa [Session.send] using hf
  rw [← hfr] at h0
  simp at h0

/-- Claim C6 amended: encoding text of byte length L sets the length
byte to L + 1, which equals the number of bytes that follow it (so the
maximum, length byte 255, encodes 255 following bytes, 256 in total);
decoding a frame whose length byte is 255 consumes exactly 255 bytes
after the length byte — extra available bytes are not read, and fewer
than 255 delivered bytes is an error. -/
theorem claim_c6 :
    (∀ (k : Nat) (msg : List Nat), msg.length ≤ 254 →
      Session.send k msg = Except.ok ((msg.length + 1) :: k :: msg) ∧
      (k :: msg).length = msg.length + 1) ∧
    (∀ c extra : List Nat, c.length = 255 →
      handle_packet [[255], c ++ extra] = handle_packet [[255], c]) ∧
    (∀ c : List Nat, c.length < 255 →
      handle_packet [[255], c] =
        Except.error "Num of bytes read does not match num of bytes declared in header by client.") := by
  refine ⟨?_, ?_, ?_⟩
  · intro k msg hlen
    have hngt : ¬ msg.length > 254 := by omega
    constructor
    · unfold Session.send
      rw [if_neg hngt]
    · simp
  · intro c extra h
    have hc : c.take 255 = c := by
      rw [← h, List.take_length]
    have ht : (c ++ extra).take 255 = c := by
      rw [← h, List.take_left]
    simp [handle_packet, ht, hc]
  · intro c h
    have ht : c.take 255 = c := List.take_of_length_le (by omega)
    have hne : (255 : Nat) + 1 ≠ c.length + 1 := by omega
    simp [handle_packet, ht, hne]

/-- Witness for C6 at concrete inputs. -/
theorem claim_c6_witness :
    Session.send 3 [7] = Except.ok [2, 3, 7] ∧
    handle_packet [[255], List.replicate 255 3 ++ [9, 9]] =
      handle_packet [[255], List.replicate 255 3] ∧
    handle_packet [[255], [3]] =
      Except.error "Num of bytes read does not match num of bytes declared in header by client." := by
  refine ⟨?_, ?_, ?_⟩
  · exact (claim_c6.1 3 [7] (by decide)).1
  · exact claim_c6.2.1 (List.replicate 255 3) [9, 9] (by rw [List.length_replicate])
  · exact claim_c6.2.2 [3] (by decide)

/-- An event that is a Warn packet. -/
def is_warn_item : LogItem → Bool
  | .packetLogItem _ _ pkt =>
    match pkt.packet_type with
    | .Warn => true
    | _ => false
  | _ => false

/-- An event that is an Alert packet. -/
def is_alert_item : LogItem → Bool
  | .packetLogItem _ _ pkt =>
    match pkt.packet_type with
    | .Alert => true
    | _ => false
  | _ => false

/-- Helper: a Warn packet raises `warn_state` to Warn unless it is
already Alert, which it never lowers. -/
theorem warn_state_step_warn (s : State) (rs : RenderState) (it : LogItem)
    (h : is_warn_item it = true) :
    (process_log_item s rs it).1.warn_state =
      if s.warn_state = WarnStates.Alert then WarnStates.Alert
      else WarnStates.Warn := by
  cases it with
  | packetLogItem t pa pkt =>
    obtain ⟨pty, txt⟩ := pkt
    cases pty with
    | Warn =>
      by_cases hA : s.warn_state = WarnStates.Alert <;>
        simp [process_log_item, hA]
    | Info => simp [is_warn_item] at h
    | Alert => simp [is_warn_item] at h
    | Name => simp [is_warn_item] at h
  | connectLogItem t pa => simp [is_warn_item] at h
  | disconnectLogItem t pa => simp [is_warn_item] at h

/-- Helper: an Alert packet always sets `warn_state` to Alert. -/
theorem warn_state_step_alert (s : State) (rs : RenderState) (it : LogItem)
    (h : is_alert_item it = true) :
    (process_log_item s rs it).1.warn_state = WarnStates.Alert := by
  cases it with
  | packetLogItem t pa pkt =>
    obtain ⟨pty, txt⟩ := pkt
    cases pty with
    | Alert => simp [process_log_item]
    | Info => simp [is_alert_item] at h
    | Warn => simp [is_alert_item] at h
    | Name => simp [is_alert_item] at h
  | connectLogItem t pa => simp [is_alert_item] at h
  | disconnectLogItem t pa => simp [is_alert_item] at h

/-- Helper: a Warn packet is not an Alert packet. -/
theorem warn_not_alert_item (it : LogItem) (h : is_warn_item it = true) :
    is_alert_item it = false := by
  cases it with
  | packetLogItem t pa pkt =>
    obtain ⟨pty, txt⟩ := pkt
    cases pty with
    | Warn => rfl
    | Info => simp [is_warn_item] at h
    | Alert => simp [is_warn_item] at h
    | Name => simp [is_warn_item] at h
  | connectLogItem t pa => rfl
  | disconnectLogItem t pa => rfl

/-- Helper: an Alert packet is not a Warn packet. -/
theorem alert_not_warn_item (it : LogItem) (h : is_alert_item it = true) :
    is_warn_item it = false := by
  cases it with
  | packetLogItem t pa pkt =>
    obtain ⟨pty, txt⟩ := pkt
    cases pty with
    | Alert => rfl
    | Info => simp [is_alert_item] at h
    | Warn => simp [is_alert_item] at h
    | Name => simp [is_alert_item] at h
  | connectLogItem t pa => rfl
  | disconnectLogItem t pa => rfl

/-- Helper: one fold step of `process_log_items`. -/
theorem process_log_items_cons (s : State) (rs : RenderState) (it : LogItem)
    (rest : List LogItem) :
    process_log_items s rs (it :: rest) =
      process_log_items (process_log_item s rs it).1
        (process_log_item s rs it).2 rest := by
  simp [process_log_items]

/-- Helper: over a sequence of Warn/Alert packets only, the final
escalation state is Alert when the start was Alert or any Alert occurs,
else Warn when any Warn occurs, else the start state. -/
theorem warn_state_after_items (items : List LogItem) :
    ∀ (s : State) (rs : RenderState),
      (∀ it ∈ items, is_warn_item it = true ∨ is_alert_item it = true) →
      (process_log_items s rs items).1.warn_state =
        (if s.warn_state = WarnStates.Alert ∨ items.any is_alert_item then
           WarnStates.Alert
         else if items.any is_warn_item then WarnStates.Warn
         else s.warn_state) := by
  induction items with
  | nil =>
    intro s rs _
    by_cases hA : s.warn_state = WarnStates.Alert <;>
      simp [process_log_items, hA]
  | cons it rest ih =>
    intro s rs hall
    have hit := hall it (by simp)
    have hrest : ∀ x ∈ rest, is_warn_item x = true ∨ is_alert_item x = true :=
      fun x hx => hall x (by simp [hx])
    rw [process_log_items_cons, ih _ _ hrest]
    rcases hit with hw | ha
    · have hwa : is_alert_item it = false := warn_not_alert_item it hw
      rw [warn_state_step_warn s rs it hw]
      by_cases hA : s.warn_state = WarnStates.Alert <;>
        simp [hA, hw, hwa, List.any_cons]
    · have haw : is_warn_item it = false := alert_not_warn_item it ha
      rw [warn_state_step_alert s rs it ha]
      simp [ha, List.any_cons]

/-- Claim C1: starting from a reset (idle) state, processing any
sequence of Warn/Alert packet events leaves Alert if any Alert occurred,
else Warn if any Warn occurred, else idle; a Warn packet never lowers an
Alert state; the operator reset keypress sets the state to idle
unconditionally. -/
theorem claim_c1 :
    (∀ (items : List LogItem) (s : State) (rs : RenderState),
      s.warn_state = WarnStates.None →
      (∀ it ∈ items, is_warn_item it = true ∨ is_alert_item it = true) →
      (process_log_items s rs items).1.warn_state =
        (if items.any is_alert_item then WarnStates.Alert
         else if items.any is_warn_item then WarnStates.Warn
         else WarnStates.None)) ∧
    (∀ (s : State) (rs : RenderState) (it : LogItem),
      s.warn_state = WarnStates.Alert → is_warn_item it = true →
      (process_log_item s rs it).1.warn_state = WarnStates.Alert) ∧
    (∀ (s : State) (rs : RenderState),
      (apply_reset_key s rs).1.warn_state = WarnStates.None) := by
  refine ⟨?_, ?_, ?_⟩
  · intro items s rs hidle hall
    rw [warn_state_after_items items s rs hall, hidle]
    simp
  · intro s rs it hA hw
    rw [warn_state_step_warn s rs it hw, if_pos hA]
  · intro s rs
    rfl

/-- Witness for C1: a Warn then an Alert from the initial (idle) state
ends in Alert; a Warn on an Alert state stays Alert; reset yields idle. -/
theorem claim_c1_witness :
    (process_log_items initial_state RenderState.rerender_all
        [LogItem.packetLogItem 0 7 { packet_type := .Warn, text := none },
         LogItem.packetLogItem 1 7 { packet_type := .Alert, text := none }]).1.warn_state
      = WarnStates.Alert ∧
    (apply_reset_key initial_state RenderState.new).1.warn_state =
      WarnStates.None := by
  constructor
  · have h := claim_c1.1
      [LogItem.packetLogItem 0 7 { packet_type := .Warn, text := none },
       LogItem.packetLogItem 1 7 { packet_type := .Alert, text := none }]
      initial_state RenderState.rerender_all rfl (by decide)
    rw [h]
    rfl
  · exact claim_c1.2.2 initial_state RenderState.new

/-- Claim C7: a NAME packet with non-empty text of length < 25 upserts
the peer-name entry; a Disconnect event removes it; and after a
name/disconnect/reconnect sequence from the same address, a packet from
that address is displayed by its raw address, never by the old name. -/
theorem claim_c7 :
    (∀ (s : State) (rs : RenderState) (t : Nat) (p : Peer) (name : List Nat),
      name ≠ [] → name.length < 25 →
      (process_log_item s rs
          (LogItem.packetLogItem t p
            { packet_type := .Name, text := some name })).1.peer_names p
        = some name) ∧
    (∀ (s : State) (rs : RenderState) (t : Nat) (p : Peer),
      (process_log_item s rs (LogItem.disconnectLogItem t p)).1.peer_names p
        = none) ∧
    (∀ (s : State) (rs : RenderState) (t1 t2 t3 : Nat) (p : Peer)
        (name : List Nat) (pt : PacketType),
      displayed_peer
        ((process_log_items s rs
            [LogItem.packetLogItem t1 p { packet_type := .Name, text := some name },
             LogItem.disconnectLogItem t2 p,
             LogItem.connectLogItem t3 p]).1.peer_names) p pt
        = Displayed.byAddr) := by
  refine ⟨?_, ?_, ?_⟩
  · intro s rs t p name _hne hlen
    simp [process_log_item, hlen]
  · intro s rs t p
    simp [process_log_item]
  · intro s rs t1 t2 t3 p name pt
    have hnames :
        (process_log_items s rs
            [LogItem.packetLogItem t1 p { packet_type := .Name, text := some name },
             LogItem.disconnectLogItem t2 p,
             LogItem.connectLogItem t3 p]).1.peer_names p = none := by
      by_cases hlen : name.length < 25 <;>
        simp [process_log_items, process_log_item, hlen]
    cases pt <;> simp [displayed_peer, hnames]

/-- Witness for C7 at a concrete peer and the name "alice". -/
theorem claim_c7_witness :
    (process_log_item initial_state RenderState.new
        (LogItem.packetLogItem 0 7
          { packet_type := .Name, text := some [97, 108, 105, 99, 101] })).1.peer_names 7
      = some [97, 108, 105, 99, 101] ∧
    displayed_peer
      ((process_log_items initial_state RenderState.new
          [LogItem.packetLogItem 0 7
            { packet_type := .Name, text := some [97, 108, 105, 99, 101] },
           LogItem.disconnectLogItem 1 7,
           LogItem.connectLogItem 2 7]).1.peer_names) 7 PacketType.Warn
      = Displayed.byAddr := by
  constructor
  · exact claim_c7.1 initial_state RenderState.new 0 7 [97, 108, 105, 99, 101]
      (by decide) (by decide)
  · exact claim_c7.2.2 initial_state RenderState.new 0 1 2 7
      [97, 108, 105, 99, 101] PacketType.Warn

/-- Helper: every processed event is pushed to the front of the log. -/
theorem packet_log_push (s : State) (rs : RenderState) (it : LogItem) :
    (process_log_item s rs it).1.packet_log = it :: s.packet_log := by
  cases it with
  | packetLogItem t pa pkt =>
    obtain ⟨pty, txt⟩ := pkt
    cases pty <;> cases txt <;> simp [process_log_item] <;> split <;> simp
  | connectLogItem t pa => rfl
  | disconnectLogItem t pa => rfl

/-- Helper: the log length grows by exactly one per processed event. -/
theorem packet_log_length_after (items : List LogItem) :
    ∀ (s : State) (rs : RenderState),
      (process_log_items s rs items).1.packet_log.length =
        s.packet_log.length + items.length := by
  induction items with
  | nil =>
    intro s rs
    simp [process_log_items]
  | cons it rest ih =>
    intro s rs
    rw [process_log_items_cons, ih]
    rw [packet_log_push]
    simp
    omega

/-- Counterexample to C8 as stated: no fixed cap bounds the history
length across all event sequences — the aggregator never trims the log. -/
theorem claim_c8_counterexample :
    ¬ ∃ cap : Nat, ∀ items : List LogItem,
        (process_log_items initial_state RenderState.rerender_all
            items).1.packet_log.length ≤ cap := by
  rintro ⟨cap, h⟩
  have hlen := packet_log_length_after
    (List.replicate (cap + 1) (LogItem.connectLogItem 0 0))
    initial_state RenderState.rerender_all
  have hc := h (List.replicate (cap + 1) (LogItem.connectLogItem 0 0))
  rw [hlen] at hc
  simp only [initial_state, List.length_replicate, List.length_nil] at hc
  omega

/-- Claim C8 amended: the history is unbounded — each processed event is
prepended (most-recent-first) with no trimming, so its length equals the
initial length plus the number of events processed; only rendering is
limited to what fits the pane. -/
theorem claim_c8 :
    (∀ (s : State) (rs : RenderState) (it : LogItem),
      (process_log_item s rs it).1.packet_log = it :: s.packet_log) ∧
    (∀ (items : List LogItem) (s : State) (rs : RenderState),
      (process_log_items s rs items).1.packet_log.length =
        s.packet_log.length + items.length) := by
  exact ⟨packet_log_push, fun items s rs => packet_log_length_after items s rs⟩

/-- Witness for C8: one concrete event grows the initially empty log to
length one, with the event at the front. -/
theorem claim_c8_witness :
    (process_log_items initial_state RenderState.new
        [LogItem.connectLogItem 0 3]).1.packet_log.length = 0 + 1 :=
  claim_c8.2 [LogItem.connectLogItem 0 3] initial_state RenderState.new

/-- Counterexample to C9 as stated: with the default art and an idle
state, a 10x10 terminal makes the first frame fail and the UI loop ends
with that error — the second (large-enough) tick is never rendered, so
the loop does not continue and the process exits with the error. -/
theorem claim_c9_counterexample :
    ui_loop default_art WarnStates.None [(10, 10), (100, 50)] =
      Except.error "ERROR: ascii art is too large to render on terminal." := by
  rfl

/-- Claim C9 amended: when the terminal is smaller than the minimum for
the current art, `render` reports an error before drawing anything, and
the `?` operator in the main loop propagates it: the loop terminates
with that error (no later frame runs), so the process exits rather than
skipping the frame and continuing. -/
theorem claim_c9 :
    ∀ (art : WarnStateAsciiArt) (ws : WarnStates) (cols rows : Nat)
      (rest : List (Nat × Nat)),
      (cols < art_width (art.to_ascii_art ws) + 10 ∨
        rows < art_height (art.to_ascii_art ws) + 10) →
      render_check cols rows art ws =
        Except.error "ERROR: ascii art is too large to render on terminal." ∧
      ui_loop art ws ((cols, rows) :: rest) =
        Except.error "ERROR: ascii art is too large to render on terminal." := by
  intro art ws cols rows rest h
  have hrc : render_check cols rows art ws =
      Except.error "ERROR: ascii art is too large to render on terminal." := by
    unfold render_check
    rw [if_pos h]
  refine ⟨hrc, ?_⟩
  unfold ui_loop
  rw [hrc]

/-- Witness for C9 at an 11x11 terminal with the default idle art
(minimum is 17 columns by 13 rows). -/
theorem claim_c9_witness :
    ui_loop default_art WarnStates.None [(11, 11), (100, 50)] =
      Except.error "ERROR: ascii art is too large to render on terminal." :=
  (claim_c9 default_art WarnStates.None 11 11 [(100, 50)] (by decide)).2

end WarningWindow
